import Mathlib

/-!
Shallow embedding of mongobox (src/mongobox/mongobox.py): a process
lifecycle supervisor for a disposable MongoDB test instance.

The Python class MongoBox is modelled as a record of its attributes.
Side-effecting collaborators (filesystem, process spawning and polling,
TCP connect attempts, the external restore utility) are modelled as
oracle records; the methods become pure functions from a box state and
an oracle environment to a new box state plus an optional raised error.
Wall-clock time in the readiness loop is modelled by the number of times
the loop guard `datetime.datetime.now() < deadline` evaluates to true
(field `iters` of `StartEnv`); the poll and connect outcomes of attempt
number k are given by the oracle at index k.
-/

/-- Errors raised by the Python code. `configError` stands for the two
AssertionError raises in `__init__`; `startupCrash` and `startupTimeout`
for the two `Exception` raises on the startup path; `calledProcessError`
for `subprocess.check_call` failing; `importError` for the mongorestore
error-output exception; `stopError` for an arbitrary exception escaping
`stop()` internals; `bodyError` for an arbitrary exception raised by the
body of a `with` block. -/
inductive MErr where
  | configError (msg : String)
  | startupCrash (code : Int)
  | startupTimeout
  | calledProcessError (code : Int)
  | importError (lines : List String)
  | stopError
  | bodyError
  deriving DecidableEq

/-- Python truthiness of an optional string: `None` and the empty string
are falsy. -/
def truthyS (s : Option String) : Bool :=
  match s with
  | none => false
  | some s => if s = "" then false else true

/-- os.devnull on the platforms the code targets. -/
def devNull : String := "/dev/null"

/-- Does the character list `pat` occur as a contiguous sublist of `s`?
Models the Python substring test `pat in s`. -/
def containsSub (pat : List Char) : List Char → Bool
  | [] => pat.isEmpty
  | c :: rest => pat.isPrefixOf (c :: rest) || containsSub pat rest

/-- Models the substring test of line 100, `lambda e: 'ERROR' in e`. -/
def hasERROR (s : String) : Bool := containsSub "ERROR".toList s.toList

/-- The state of one MongoBox instance: the attributes assigned by
`__init__` plus the two set later (`process`, `_db_path_is_temporary`,
the latter `none` until `start()` first assigns it). The process handle
carries no information of its own; its liveness is an oracle matter. -/
structure MongoBox where
  mongod_bin : Option String
  port : Nat
  log_path : String
  scripting : Bool
  prealloc : Bool
  db_path : Option String
  auth : Bool
  dump_file : Option String
  process : Option Unit
  db_path_is_temporary : Option Bool
  deriving DecidableEq

/-- The keyword arguments of `MongoBox.__init__`, with the Python
defaults. -/
structure InitArgs where
  mongod_bin : Option String := none
  port : Option Nat := none
  log_path : Option String := none
  db_path : Option String := none
  scripting : Bool := true
  prealloc : Bool := false
  auth : Bool := false
  dump_file : Option String := none

/-- Environment consulted by `__init__`: the Binary Locator result for
`find_executable("mongod")`, the Port Allocator result for
`get_free_port()`, and the filesystem predicates used to validate
`db_path`. -/
structure InitEnv where
  findExecutable : Option String
  getFreePort : Nat
  pathExists : String → Bool
  isFile : String → Bool

/-- Environment consulted by `stop()`: whether the terminate/kill/wait
calls raise, and whether `shutil.rmtree` raises. -/
structure StopEnv where
  termRaises : Bool
  rmtreeRaises : Bool
  deriving DecidableEq

/-- Environment consulted by `start()` and `_wait_till_started`.
`iters` is the number of readiness-loop guard checks that find the
deadline not yet elapsed; `poll k` is the `self.process.poll()` result
at attempt k (`none` = still running, `some c` = exited with code c);
`connect k` tells whether the TCP connect of attempt k to
`localhost:port` succeeds. `mkdtemp` is the path `tempfile.mkdtemp()`
returns; `pathExists` is consulted for the `os.mkdir` branch (its
effect, creating a directory, is outside the modelled state).
`restoreExit` and `restoreOutput` are the exit status and captured
output lines of the `mongorestore` invocation. -/
structure StartEnv where
  mkdtemp : String
  pathExists : String → Bool
  iters : Nat
  poll : Nat → Option Int
  connect : Nat → Bool
  stopEnv : StopEnv
  restoreExit : Int
  restoreOutput : List String

/-- The binary path resolved on line 37: the caller-supplied path when
truthy, else the Binary Locator result. -/
def resolvedBin (a : InitArgs) (env : InitEnv) : Option String :=
  if truthyS a.mongod_bin then a.mongod_bin else env.findExecutable

/-- The condition of lines 48-49: a truthy `db_path` that exists and is
a regular file. -/
def dbPathIsFile (a : InitArgs) (env : InitEnv) : Bool :=
  truthyS a.db_path && env.pathExists (a.db_path.getD "")
    && env.isFile (a.db_path.getD "")

/-- `MongoBox.__init__` (lines 32-52). The `or` defaults follow Python
truthiness; the two asserts become `configError` results; on success
the process handle is null. -/
def MongoBox.construct (a : InitArgs) (env : InitEnv) : Except MErr MongoBox :=
  if truthyS (resolvedBin a env) then
    if dbPathIsFile a env then
      .error (.configError "DB path should be a directory, but it is a file.")
    else
      .ok { mongod_bin := resolvedBin a env
          , port := (match a.port with
                     | some p => if p = 0 then env.getFreePort else p
                     | none => env.getFreePort)
          , log_path := (match a.log_path with
                         | some s => if s = "" then devNull else s
                         | none => devNull)
          , scripting := a.scripting
          , prealloc := a.prealloc
          , db_path := a.db_path
          , auth := a.auth
          , dump_file := a.dump_file
          , process := none
          , db_path_is_temporary := none }
  else
    .error (.configError "Could not find mongod in system PATH.")

/-- The DEFAULT_ARGS list of lines 16-28. -/
def DEFAULT_ARGS : List String :=
  ["--quiet", "--nohttpinterface", "--nounixsocket", "--smallfiles", "--nojournal"]

/-- The argument vector built in `start()` (lines 68-82). -/
def buildArgs (b : MongoBox) : List String :=
  let args := b.mongod_bin.getD "" :: DEFAULT_ARGS
  let args := args ++ ["--dbpath", b.db_path.getD ""]
  let args := args ++ ["--port", toString b.port]
  let args := args ++ ["--logpath", b.log_path]
  let args := if b.auth then args ++ ["--auth"] else args
  let args := if b.scripting then args else args ++ ["--noscripting"]
  if b.prealloc then args else args ++ ["--noprealloc"]

/-- `MongoBox.stop` (lines 105-122). Returns the new state, the
directory handed to `shutil.rmtree` when that call happens, and the
error raised, if any. A raise leaves the mutations made so far: a
terminate/wait failure leaves everything in place; an rmtree failure
leaves the process handle set (line 122 is never reached). -/
def MongoBox.stop (b : MongoBox) (env : StopEnv) :
    MongoBox × Option String × Option MErr :=
  match b.process with
  | none => (b, none, none)
  | some _ =>
    if env.termRaises then (b, none, some .stopError)
    else if b.db_path_is_temporary = some true then
      if env.rmtreeRaises then (b, none, some .stopError)
      else ({ b with db_path := none, process := none }, b.db_path, none)
    else ({ b with process := none }, none, none)

/-- `MongoBox.running` (lines 124-125). -/
def MongoBox.running (b : MongoBox) : Bool := b.process.isSome

/-- Outcome of the `_wait_till_started` loop body: readiness reached at
some attempt, a crash exception raised at some attempt with the child
exit code, or the guard found the deadline elapsed. -/
inductive WaitOutcome where
  | success (attempt : Nat)
  | crash (code : Int) (attempt : Nat)
  | deadline
  deriving DecidableEq

/-- The loop of `_wait_till_started` (lines 137-151). `r` is the number
of guard checks still finding time before the deadline; `k` numbers the
current attempt. Each iteration first polls the child, then attempts a
TCP connect, exactly in source order. -/
def waitLoop (poll : Nat → Option Int) (connect : Nat → Bool) :
    Nat → Nat → WaitOutcome
  | 0, _ => .deadline
  | r + 1, k =>
    match poll k with
    | some c => .crash c k
    | none => if connect k then .success k else waitLoop poll connect r (k + 1)

/-- The `db_path` / temporary-flag computation at the top of `start()`
(lines 60-66): a truthy configured path is kept (and marked not
temporary); otherwise a fresh `tempfile.mkdtemp()` directory is used
and marked temporary. -/
def tempDbPath (b : MongoBox) (env : StartEnv) : String × Bool :=
  match b.db_path with
  | some s => if s = "" then (env.mkdtemp, true) else (s, false)
  | none => (env.mkdtemp, true)

/-- The box state right after `subprocess.Popen` (line 84): `db_path`
and the temporary flag assigned, the process handle held. -/
def startedBox (b : MongoBox) (env : StartEnv) : MongoBox :=
  { b with db_path := some (tempDbPath b env).1
         , db_path_is_temporary := some (tempDbPath b env).2
         , process := some () }

/-- `MongoBox.start` (lines 54-103) combined with `_wait_till_started`
(lines 134-156). A crash exception propagates out of the loop with no
cleanup; on deadline expiry the loop runs `try: self.stop() except:
pass` and `start` raises the timeout exception; on readiness, when a
dump file is configured, `mongorestore` is run (`check_call` raising on
a non-zero exit before any output is read) and its captured lines are
filtered for the "ERROR" marker. -/
def MongoBox.start (b : MongoBox) (env : StartEnv) : MongoBox × Option MErr :=
  let b2 := startedBox b env
  match waitLoop env.poll env.connect env.iters 0 with
  | .crash c _ => (b2, some (.startupCrash c))
  | .deadline => ((b2.stop env.stopEnv).1, some .startupTimeout)
  | .success _ =>
    if truthyS b2.dump_file then
      if env.restoreExit = 0 then
        if env.restoreOutput.filter (fun l => hasERROR l) = [] then (b2, none)
        else (b2, some (.importError (env.restoreOutput.filter (fun l => hasERROR l))))
      else (b2, some (.calledProcessError env.restoreExit))
    else (b2, none)

/-- The `with` protocol (lines 158-163): `__enter__` runs `start()` and
returns the box; if that raises, `__exit__` is not called and the error
propagates. Otherwise the body runs (`bodyFails` tells whether it
raises), `__exit__` runs `stop()` unconditionally, and an error raised
by `stop()` replaces the body error; otherwise a body error
propagates. -/
def MongoBox.withScope (b : MongoBox) (envS : StartEnv) (envStop : StopEnv)
    (bodyFails : Bool) : MongoBox × Option MErr :=
  let r := b.start envS
  match r.2 with
  | some e => (r.1, some e)
  | none =>
    let s := r.1.stop envStop
    match s.2.2 with
    | some e2 => (s.1, some e2)
    | none => (s.1, if bodyFails then some .bodyError else none)

/-! ### Lemmas about the readiness loop -/

/-- If every attempt in the window both finds the child alive and fails
to connect, the loop exhausts the deadline. -/
theorem waitLoop_deadline (poll : Nat → Option Int) (connect : Nat → Bool)
    (r k : Nat)
    (h : ∀ j, j < r → poll (k + j) = none ∧ connect (k + j) = false) :
    waitLoop poll connect r k = .deadline := by
  induction r generalizing k with
  | zero => rfl
  | succ r ih =>
    have h0 := h 0 (Nat.succ_pos r)
    rw [Nat.add_zero] at h0
    simp only [waitLoop, h0.1, h0.2, if_false]
    exact ih (k + 1) (fun j hj => by
      have hx := h (j + 1) (Nat.succ_lt_succ hj)
      have he : k + (j + 1) = k + 1 + j := by omega
      rwa [he] at hx)

/-- If the first n attempts find the child alive and fail to connect,
and attempt n finds it exited with code c inside the window, the loop
raises the crash exception at attempt n. -/
theorem waitLoop_crash (poll : Nat → Option Int) (connect : Nat → Bool)
    (c : Int) (n : Nat) :
    ∀ (r k : Nat), n < r →
    (∀ j, j < n → poll (k + j) = none ∧ connect (k + j) = false) →
    poll (k + n) = some c →
    waitLoop poll connect r k = .crash c (k + n) := by
  induction n with
  | zero =>
    intro r k hr hbefore hp
    match r, hr with
    | r + 1, _ =>
      rw [Nat.add_zero] at hp
      simp only [waitLoop, hp, Nat.add_zero]
  | succ n ih =>
    intro r k hr hbefore hp
    match r, hr with
    | r + 1, hr =>
      have h0 := hbefore 0 (Nat.succ_pos n)
      rw [Nat.add_zero] at h0
      simp only [waitLoop, h0.1, h0.2, if_false]
      have he : k + (n + 1) = k + 1 + n := by omega
      rw [he] at hp ⊢
      exact ih r (k + 1) (by omega)
        (fun j hj => by
          have hx := hbefore (j + 1) (Nat.succ_lt_succ hj)
          have he2 : k + (j + 1) = k + 1 + j := by omega
          rwa [he2] at hx)
        hp

/-- A successful loop outcome certifies a successful connect at an
attempt inside the window, with the child alive at that attempt. -/
theorem waitLoop_success (poll : Nat → Option Int) (connect : Nat → Bool) :
    ∀ (r k a : Nat), waitLoop poll connect r k = .success a →
    poll a = none ∧ connect a = true ∧ k ≤ a ∧ a < k + r := by
  intro r
  induction r with
  | zero => intro k a h; exact absurd h (by simp [waitLoop])
  | succ r ih =>
    intro k a h
    simp only [waitLoop] at h
    cases hp : poll k with
    | some c => rw [hp] at h; exact absurd h (by simp)
    | none =>
      rw [hp] at h
      cases hc : connect k with
      | true =>
        rw [hc] at h
        simp only [if_pos] at h
        cases h
        exact ⟨hp, hc, Nat.le_refl _, by omega⟩
      | false =>
        rw [hc] at h
        simp only [Bool.false_eq_true, if_false] at h
        have := ih (k + 1) a h
        exact ⟨this.1, this.2.1, by omega, by omega⟩

/-! ### Lemmas about start and stop -/

/-- When `start` returns without error, the loop ended in success and
the resulting state is the post-spawn state. -/
theorem start_ok_state (b : MongoBox) (env : StartEnv)
    (h : (b.start env).2 = none) :
    (b.start env).1 = startedBox b env
      ∧ ∃ a, waitLoop env.poll env.connect env.iters 0 = .success a := by
  cases hw : waitLoop env.poll env.connect env.iters 0 with
  | success a =>
    refine ⟨?_, a, rfl⟩
    simp only [MongoBox.start, hw]
    split
    · split
      · split
        · rfl
        · rfl
      · rfl
    · rfl
  | crash c k => simp [MongoBox.start, hw] at h
  | deadline => simp [MongoBox.start, hw] at h

/-- With no process handle held, `stop` returns at line 107: no error,
no rmtree, state untouched. -/
theorem stop_idle (b : MongoBox) (env : StopEnv) (h : b.process = none) :
    b.stop env = (b, none, none) := by
  simp [MongoBox.stop, h]

/-- A `stop` whose terminate/wait and rmtree calls do not raise clears
the process handle. -/
theorem stop_clears (b : MongoBox) (env : StopEnv)
    (ht : env.termRaises = false) (hr : env.rmtreeRaises = false) :
    (b.stop env).1.process = none := by
  cases hp : b.process with
  | none => simp [MongoBox.stop, hp]
  | some u =>
    simp only [MongoBox.stop, hp, ht, hr, Bool.false_eq_true, if_false]
    split <;> rfl

/-! ### Concrete fixtures used to instantiate the theorems -/

def stopEnvOk : StopEnv := { termRaises := false, rmtreeRaises := false }

def boxA : MongoBox :=
  { mongod_bin := some "/usr/local/bin/mongod", port := 27017
  , log_path := "/dev/null", scripting := true, prealloc := false
  , db_path := none, auth := false, dump_file := none
  , process := none, db_path_is_temporary := none }

def boxB : MongoBox := { boxA with dump_file := some "/tmp/dump" }

def readyEnv : StartEnv :=
  { mkdtemp := "/tmp/tmpabc123", pathExists := fun _ => false, iters := 60
  , poll := fun _ => none, connect := fun _ => true, stopEnv := stopEnvOk
  , restoreExit := 0, restoreOutput := [] }

def timeoutEnv : StartEnv := { readyEnv with connect := fun _ => false }

def crashEnv : StartEnv :=
  { readyEnv with poll := fun _ => some 1, connect := fun _ => false }

def importEnv : StartEnv :=
  { readyEnv with
      restoreOutput := ["building a list of dbs", "ERROR: bad dump root"] }

def restoreFailEnv : StartEnv := { readyEnv with restoreExit := 1 }

def okInitEnv : InitEnv :=
  { findExecutable := some "/usr/local/bin/mongod", getFreePort := 27017
  , pathExists := fun _ => false, isFile := fun _ => false }

def fileInitEnv : InitEnv :=
  { findExecutable := some "/usr/local/bin/mongod", getFreePort := 27017
  , pathExists := fun _ => true, isFile := fun _ => true }

/-! ### Claim theorems -/

/-- Claim C6: construction fails (with the ConfigurationError of the
spec, an AssertionError in the code) if and only if the resolved server
binary is not a usable path or the provided db_path exists and is a
regular file; otherwise construction succeeds with a null process
handle, and every construction failure is such a configuration
error. -/
theorem construct_validation (a : InitArgs) (env : InitEnv) :
    (∀ b, MongoBox.construct a env = .ok b → b.process = none)
    ∧ ((∃ e, MongoBox.construct a env = .error e) ↔
        (truthyS (resolvedBin a env) = false ∨ dbPathIsFile a env = true))
    ∧ (∀ e, MongoBox.construct a env = .error e → ∃ m, e = .configError m) := by
  cases hb : truthyS (resolvedBin a env) <;>
    cases hd : dbPathIsFile a env <;>
      simp [MongoBox.construct, hb, hd]

/-- Claim C6 witness: constructing with a db_path that exists as a
regular file fails. -/
theorem construct_validation_witness :
    ∃ e, MongoBox.construct { db_path := some "/tmp/somefile" } fileInitEnv
           = .error e := by
  exact (construct_validation { db_path := some "/tmp/somefile" } fileInitEnv).2.1.mpr
    (Or.inr (by decide))

/-- Claim C9, counterexample: the code performs no range validation on
a caller-supplied port. Constructing with port 70000 succeeds and the
configured port is 70000, outside 1-65535, refuting the claim that
out-of-range values are never accepted. -/
theorem port_counterexample :
    ∃ b, MongoBox.construct { port := some 70000 } okInitEnv = .ok b
         ∧ b.port = 70000 ∧ ¬ (b.port ≤ 65535) := by
  refine ⟨_, rfl, rfl, by decide⟩

/-- Claim C9 as amended: a caller-supplied nonzero port is used
unchanged with no range validation (so out-of-range values are
accepted); when the caller supplies none (or the falsy 0), the
configured port is the Port Allocator choice. -/
theorem port_passthrough (a : InitArgs) (env : InitEnv) (b : MongoBox)
    (h : MongoBox.construct a env = .ok b) :
    (∀ p, a.port = some p → p ≠ 0 → b.port = p)
    ∧ ((a.port = none ∨ a.port = some 0) → b.port = env.getFreePort) := by
  simp only [MongoBox.construct] at h
  split at h
  · split at h
    · exact absurd h (by simp)
    · cases h
      constructor
      · intro p hp hp0
        simp [hp, hp0]
      · intro hp
        rcases hp with hp | hp <;> simp [hp]
  · exact absurd h (by simp)

/-- Claim C9 witness: an in-range caller-supplied port is used
unchanged. -/
theorem port_passthrough_witness :
    ∃ b, MongoBox.construct { port := some 27018 } okInitEnv = Except.ok b
         ∧ b.port = 27018 := by
  refine ⟨_, rfl, ?_⟩
  exact (port_passthrough { port := some 27018 } okInitEnv _ rfl).1 27018 rfl
    (by decide)

/-- Claim C8: stop() on an Idle box (no process handle) returns with no
error, removes nothing, and leaves the whole state unchanged; and after
any stop() whose termination and rmtree calls do not raise, the handle
is cleared, so a second stop() in a row is such a no-op. -/
theorem stop_idempotent (b : MongoBox) (env env2 : StopEnv)
    (ht : env.termRaises = false) (hr : env.rmtreeRaises = false) :
    (b.process = none → b.stop env = (b, none, none))
    ∧ (b.stop env).1.process = none
    ∧ (b.stop env).1.stop env2 = ((b.stop env).1, none, none) := by
  refine ⟨stop_idle b env, stop_clears b env ht hr, ?_⟩
  exact stop_idle ((b.stop env).1) env2 (stop_clears b env ht hr)

/-- Claim C8 witness: stopping the freshly constructed Idle box is a
no-op. -/
theorem stop_idempotent_witness :
    boxA.stop stopEnvOk = (boxA, none, none) :=
  (stop_idempotent boxA stopEnvOk stopEnvOk rfl rfl).1 rfl

/-- Claim C2: when every attempt in the deadline window finds the child
alive and fails to connect, start() raises the timeout error; the error
is the timeout error whatever the best-effort stop() does (its own
errors are swallowed by the bare except of line 154); and when the
cleanup terminate and rmtree calls do not raise, running() is false
afterward. -/
theorem timeout_behavior (b : MongoBox) (env : StartEnv)
    (hall : ∀ j, j < env.iters → env.poll j = none ∧ env.connect j = false) :
    (b.start env).2 = some .startupTimeout
    ∧ (∀ se : StopEnv, (b.start { env with stopEnv := se }).2
        = some .startupTimeout)
    ∧ (env.stopEnv.termRaises = false → env.stopEnv.rmtreeRaises = false →
        (b.start env).1.running = false) := by
  have hw : waitLoop env.poll env.connect env.iters 0 = .deadline :=
    waitLoop_deadline env.poll env.connect env.iters 0
      (fun j hj => by simpa using hall j hj)
  refine ⟨?_, ?_, ?_⟩
  · simp [MongoBox.start, hw]
  · intro se
    simp [MongoBox.start, hw]
  · intro ht hr
    simp only [MongoBox.start, hw, MongoBox.running]
    rw [stop_clears _ _ ht hr]
    rfl

/-- Claim C2 witness: with a child that never exits and a port that
never accepts, start() times out and running() is false. -/
theorem timeout_behavior_witness :
    (boxA.start timeoutEnv).2 = some .startupTimeout
    ∧ (boxA.start timeoutEnv).1.running = false := by
  have h := timeout_behavior boxA timeoutEnv (fun j hj => ⟨rfl, rfl⟩)
  exact ⟨h.1, h.2.2 rfl rfl⟩

/-- Claim C1, counterexample: with a child that has already exited with
code 1 at the first poll, start() raises the crash error carrying code
1, but the process handle is retained (the crash exception propagates
from lines 139-141 with no cleanup), so running() is true, not false as
the claim states. -/
theorem crash_counterexample :
    (boxA.start crashEnv).2 = some (.startupCrash 1)
    ∧ (boxA.start crashEnv).1.running ≠ false := by
  exact ⟨rfl, by decide⟩

/-- Claim C1 as amended: if the child is observed exited with code c at
attempt k inside the readiness window, all earlier attempts having
found it alive without connecting, then start() fails with the crash
error carrying c, the loop outcome is independent of any connect result
from attempt k on (no further connect attempt is made after the exit is
observed), and running() returns true afterward, the process handle
being retained with no cleanup. -/
theorem crash_detection_amended (b : MongoBox) (env : StartEnv) (k : Nat)
    (c : Int) (hk : k < env.iters) (hpoll : env.poll k = some c)
    (hbefore : ∀ j, j < k → env.poll j = none ∧ env.connect j = false) :
    (b.start env).2 = some (.startupCrash c)
    ∧ (b.start env).1.running = true
    ∧ (∀ connect2 : Nat → Bool, (∀ j, j < k → connect2 j = env.connect j) →
        b.start { env with connect := connect2 } = b.start env) := by
  have hw : waitLoop env.poll env.connect env.iters 0 = .crash c k := by
    have h := waitLoop_crash env.poll env.connect c k env.iters 0 hk
      (fun j hj => by simpa using hbefore j hj) (by simpa using hpoll)
    simpa using h
  refine ⟨?_, ?_, ?_⟩
  · simp [MongoBox.start, hw]
  · simp [MongoBox.start, hw, MongoBox.running, startedBox]
  · intro connect2 hc2
    have hw2 : waitLoop env.poll connect2 env.iters 0 = .crash c k := by
      have h := waitLoop_crash env.poll connect2 c k env.iters 0 hk
        (fun j hj => by
          have h1 := hbefore j hj
          have h2 := hc2 j hj
          simp only [Nat.zero_add]
          exact ⟨h1.1, by rw [h2]; exact h1.2⟩)
        (by simpa using hpoll)
      simpa using h
    simp [MongoBox.start, hw, hw2, startedBox, tempDbPath]

/-- Claim C1 witness for the amended statement, at the same concrete
crash scenario. -/
theorem crash_detection_amended_witness :
    (boxA.start crashEnv).2 = some (.startupCrash 1)
    ∧ (boxA.start crashEnv).1.running = true := by
  have h := crash_detection_amended boxA crashEnv 0 1 (by decide) rfl
    (fun j hj => absurd hj (by omega))
  exact ⟨h.1, h.2.1⟩

/-- Claim C4: if start() returns without error, some attempt inside the
readiness window made a successful TCP connect, and immediately
afterward the process handle is held, so running() returns true. -/
theorem start_success_requires_connect (b : MongoBox) (env : StartEnv)
    (h : (b.start env).2 = none) :
    (∃ a, a < env.iters ∧ env.connect a = true)
    ∧ (b.start env).1.running = true := by
  obtain ⟨hstate, a, hw⟩ := start_ok_state b env h
  obtain ⟨hp, hc, hk, ha⟩ := waitLoop_success env.poll env.connect env.iters 0 a hw
  refine ⟨⟨a, by omega, hc⟩, ?_⟩
  rw [hstate]
  simp [startedBox, MongoBox.running]

/-- Claim C4 witness: a child accepting connections at the first
attempt makes start() return without error and running() true. -/
theorem start_success_requires_connect_witness :
    (∃ a, a < readyEnv.iters ∧ readyEnv.connect a = true)
    ∧ (boxA.start readyEnv).1.running = true :=
  start_success_requires_connect boxA readyEnv rfl

/-- Claim C3: after a successful start() followed by a stop() whose
terminate and rmtree calls do not raise, the data directory is removed
if and only if it was supervisor-created: with a falsy configured
db_path, start() used a fresh mkdtemp directory and stop() hands
exactly that directory to rmtree and clears the path attribute; with a
truthy caller-supplied directory, stop() removes nothing. -/
theorem data_dir_cleanup (b : MongoBox) (envS : StartEnv) (envStop : StopEnv)
    (hok : (b.start envS).2 = none)
    (ht : envStop.termRaises = false) (hr : envStop.rmtreeRaises = false) :
    (truthyS b.db_path = false →
       ((b.start envS).1.stop envStop).2.1 = some envS.mkdtemp
       ∧ ((b.start envS).1.stop envStop).1.db_path = none)
    ∧ (truthyS b.db_path = true →
       ((b.start envS).1.stop envStop).2.1 = none) := by
  obtain ⟨hstate, -, -⟩ := start_ok_state b envS hok
  rw [hstate]
  constructor
  · intro hfalsy
    have htmp : tempDbPath b envS = (envS.mkdtemp, true) := by
      unfold tempDbPath
      cases hdb : b.db_path with
      | none => rfl
      | some s =>
        by_cases hs : s = ""
        · simp [hs]
        · rw [hdb] at hfalsy
          simp [truthyS, hs] at hfalsy
    simp [MongoBox.stop, startedBox, htmp, ht, hr]
  · intro htruthy
    obtain ⟨s, hdb, hs⟩ : ∃ s, b.db_path = some s ∧ s ≠ "" := by
      cases hdb : b.db_path with
      | none => rw [hdb] at htruthy; simp [truthyS] at htruthy
      | some s =>
        by_cases hs : s = ""
        · rw [hdb] at htruthy; simp [truthyS, hs] at htruthy
        · exact ⟨s, rfl, hs⟩
    have htmp : tempDbPath b envS = (s, false) := by
      simp [tempDbPath, hdb, hs]
    simp [MongoBox.stop, startedBox, htmp, ht]

/-- Claim C3 witness: constructed without a data directory, after
start() then stop() the mkdtemp directory is the one removed and the
path attribute is cleared. -/
theorem data_dir_cleanup_witness :
    ((boxA.start readyEnv).1.stop stopEnvOk).2.1 = some readyEnv.mkdtemp
    ∧ ((boxA.start readyEnv).1.stop stopEnvOk).1.db_path = none :=
  (data_dir_cleanup boxA readyEnv stopEnvOk rfl rfl rfl).1 rfl

/-- Claim C5: with a dump file configured, a readiness loop that
succeeds, a restore command exiting 0, and some captured line holding
the "ERROR" substring, start() raises the import error carrying exactly
the ERROR-matching lines, and the instance is left running: the process
handle is retained and the child is not stopped. -/
theorem import_error_surfaced (b : MongoBox) (env : StartEnv) (a : Nat)
    (hdump : truthyS b.dump_file = true)
    (hw : waitLoop env.poll env.connect env.iters 0 = .success a)
    (hexit : env.restoreExit = 0)
    (l : String) (hl : l ∈ env.restoreOutput) (he : hasERROR l = true) :
    (b.start env).2
      = some (.importError (env.restoreOutput.filter (fun s => hasERROR s)))
    ∧ (b.start env).1.running = true := by
  have hne : env.restoreOutput.filter (fun s => hasERROR s) ≠ [] := by
    intro hnil
    have hmem : l ∈ env.restoreOutput.filter (fun s => hasERROR s) := by
      rw [List.mem_filter]
      exact ⟨hl, he⟩
    rw [hnil] at hmem
    exact absurd hmem (List.not_mem_nil l)
  constructor
  · simp [MongoBox.start, hw, startedBox, hdump, hexit, hne]
  · simp [MongoBox.start, hw, startedBox, MongoBox.running, hdump, hexit, hne]

/-- Claim C5 witness: a restore output line starting with ERROR makes
start() fail with the import error while running() stays true. -/
theorem import_error_surfaced_witness :
    (boxB.start importEnv).2
      = some (.importError (importEnv.restoreOutput.filter (fun s => hasERROR s)))
    ∧ (boxB.start importEnv).1.running = true :=
  import_error_surfaced boxB importEnv 0 rfl rfl rfl
    "ERROR: bad dump root" (by decide) (by decide)

/-- Claim C10: with a dump file configured and a readiness loop that
succeeds, a non-zero restore exit status makes start() raise the raw
subprocess failure, an error distinct from the import error of output
scanning; the outcome is the same whatever the captured output is
(check_call raises before the output is read), and the instance is
left running. -/
theorem restore_failure_propagates (b : MongoBox) (env : StartEnv) (a : Nat)
    (hdump : truthyS b.dump_file = true)
    (hw : waitLoop env.poll env.connect env.iters 0 = .success a)
    (hexit : env.restoreExit ≠ 0) :
    (b.start env).2 = some (.calledProcessError env.restoreExit)
    ∧ (∀ ls, MErr.calledProcessError env.restoreExit ≠ .importError ls)
    ∧ (∀ out2, b.start { env with restoreOutput := out2 } = b.start env)
    ∧ (b.start env).1.running = true := by
  refine ⟨?_, ?_, ?_, ?_⟩
  · simp [MongoBox.start, hw, startedBox, hdump, hexit]
  · intro ls h
    simp at h
  · intro out2
    simp [MongoBox.start, hw, startedBox, tempDbPath, hdump, hexit]
  · simp [MongoBox.start, hw, startedBox, MongoBox.running, hdump, hexit]

/-- Claim C10 witness: a restore exiting 1 makes start() fail with the
subprocess error while running() stays true. -/
theorem restore_failure_propagates_witness :
    (boxB.start restoreFailEnv).2 = some (.calledProcessError 1)
    ∧ (boxB.start restoreFailEnv).1.running = true := by
  have h := restore_failure_propagates boxB restoreFailEnv 0 rfl rfl (by decide)
  exact ⟨h.1, h.2.2.2⟩

/-- Claim C7: when entering the scope succeeds (start() returns without
error) and the stop() run by scope exit does not itself fail in its
terminate or rmtree calls, running() is false after the scope on every
exit path; and when the body raised, the body error still propagates
after stop() ran. -/
theorem scoped_lifetime (b : MongoBox) (envS : StartEnv) (envStop : StopEnv)
    (bodyFails : Bool)
    (henter : (b.start envS).2 = none)
    (ht : envStop.termRaises = false) (hr : envStop.rmtreeRaises = false) :
    (b.withScope envS envStop bodyFails).1.running = false
    ∧ (bodyFails = true →
        (b.withScope envS envStop bodyFails).2 = some .bodyError) := by
  have hstop := stop_clears (b.start envS).1 envStop ht hr
  have hserr : ((b.start envS).1.stop envStop).2.2 = none := by
    obtain ⟨hstate, -, -⟩ := start_ok_state b envS henter
    rw [hstate]
    simp only [MongoBox.stop, startedBox, ht, Bool.false_eq_true, if_false]
    split
    · rw [hr]
      simp
    · simp
  constructor
  · simp only [MongoBox.withScope, henter, hserr]
    simp [MongoBox.running, hstop]
  · intro hb
    simp [MongoBox.withScope, henter, hserr, hb]

/-- Claim C7 witness: a scope whose body raises still ends with
running() false and the body error surfaced. -/
theorem scoped_lifetime_witness :
    (boxA.withScope readyEnv stopEnvOk true).1.running = false
    ∧ (boxA.withScope readyEnv stopEnvOk true).2 = some .bodyError := by
  have h := scoped_lifetime boxA readyEnv stopEnvOk true rfl rfl rfl
  exact ⟨h.1, h.2 rfl⟩
